import Mathlib

/-!
Verification of the conversation-window assembly and streaming-backend
dispatch engine of the `doktor` chat client (`doktor/chat.py`).

Python strings are modelled as Lean `String` (Python `len` counts code
points, as does `String.length`).  Python list slicing / `str` methods that
Lean's `String` does not compute well are modelled on the underlying
character list `String.data`, which is the same data.
-/

set_option maxHeartbeats 1000000

namespace Doktor

/-- One stored conversation entry as read back from the database
(`ConversationEntry` rows carry a `role` and a `content` string). -/
structure Entry where
  role : String
  content : String
  deriving DecidableEq, Repr

/-- `count_tokens` from `chat.py`: `return len(text) // 4` (floor division
of the code-point length by 4). -/
def count_tokens (text : String) : Nat :=
  text.length / 4

/-- The per-entry text built inside `load_conversation_history`:
`entry_text = f"{entry.role}: {entry.content}\n"`. -/
def entry_text (e : Entry) : String :=
  e.role ++ ": " ++ e.content ++ "\n"

/-- `entry_token_count = count_tokens(entry_text)` from
`load_conversation_history`. -/
def entry_cost (e : Entry) : Nat :=
  count_tokens (entry_text e)

/-- The accumulation loop of `load_conversation_history`: iterate over
`reversed(entries)` (newest first), keep a running `token_count`, include an
entry while `token_count + entry_token_count <= max_tokens`, and `break` at
the first entry that does not fit. -/
def window_loop (maxTokens : Nat) : List Entry → Nat → List Entry
  | [], _ => []
  | e :: rest, acc =>
    if acc + entry_cost e ≤ maxTokens then
      e :: window_loop maxTokens rest (acc + entry_cost e)
    else
      []

/-- `load_conversation_history` from `chat.py`: run the loop over
`reversed(entries)` starting from `token_count = 0`, then return
`conversation_text[::-1]` (reverse back to oldest-first order). -/
def load_conversation_history (entries : List Entry) (maxTokens : Nat) : List Entry :=
  (window_loop maxTokens entries.reverse 0).reverse

/-- Total estimated token cost of a list of entries, each one costed the way
`load_conversation_history` costs it. -/
def sum_cost (l : List Entry) : Nat :=
  (l.map entry_cost).sum

lemma sum_cost_nil : sum_cost [] = 0 := rfl

lemma sum_cost_cons (e : Entry) (l : List Entry) :
    sum_cost (e :: l) = entry_cost e + sum_cost l := by
  simp [sum_cost]

lemma sum_cost_reverse (l : List Entry) : sum_cost l.reverse = sum_cost l := by
  simp [sum_cost, List.sum_reverse]

lemma window_loop_pre (B : Nat) (l : List Entry) :
    ∀ acc, window_loop B l acc <+: l := by
  induction l with
  | nil => intro acc; simp [window_loop]
  | cons e rest ih =>
    intro acc
    by_cases h : acc + entry_cost e ≤ B
    · obtain ⟨t, ht⟩ := ih (acc + entry_cost e)
      exact ⟨t, by rw [window_loop, if_pos h, List.cons_append, ht]⟩
    · exact ⟨e :: rest, by rw [window_loop, if_neg h]; rfl⟩

lemma window_loop_sum (B : Nat) (l : List Entry) :
    ∀ acc, acc ≤ B → acc + sum_cost (window_loop B l acc) ≤ B := by
  induction l with
  | nil => intro acc h; simpa [window_loop, sum_cost_nil] using h
  | cons e rest ih =>
    intro acc h
    by_cases h' : acc + entry_cost e ≤ B
    · rw [window_loop, if_pos h', sum_cost_cons]
      have := ih (acc + entry_cost e) h'
      omega
    · rw [window_loop, if_neg h', sum_cost_nil]
      omega

lemma window_loop_idem (B : Nat) (l : List Entry) :
    ∀ acc, window_loop B (window_loop B l acc) acc = window_loop B l acc := by
  induction l with
  | nil => intro acc; simp [window_loop]
  | cons e rest ih =>
    intro acc
    by_cases h : acc + entry_cost e ≤ B
    · rw [window_loop, if_pos h, window_loop, if_pos h, ih]
    · rw [window_loop, if_neg h, window_loop]

lemma entry_text_length (e : Entry) :
    (entry_text e).length = e.role.length + e.content.length + 3 := by
  have h2 : (": " : String).length = 2 := by decide
  have h1 : ("\n" : String).length = 1 := by decide
  simp only [entry_text, String.length_append, h2, h1]
  omega

lemma entry_cost_pos_of_role_ne_empty (e : Entry) (h : e.role ≠ "") :
    0 < entry_cost e := by
  have hd : e.role.data ≠ [] := fun hnil => h (String.ext hnil)
  have hlen : 0 < e.role.length := List.length_pos.mpr hd
  have := entry_text_length e
  unfold entry_cost count_tokens
  omega

/-- **C1.** `load_conversation_history` returns a contiguous suffix of the
history in time order; the summed per-entry estimated cost of the result is
at most the budget; the result is empty when the single most recent entry
alone exceeds the budget, and (for entries with a non-empty role, as every
stored entry has) when the budget is 0. -/
theorem load_conversation_history_spec (H : List Entry) (B : Nat) :
    load_conversation_history H B <:+ H
    ∧ sum_cost (load_conversation_history H B) ≤ B
    ∧ (∀ e, H.getLast? = some e → B < entry_cost e →
        load_conversation_history H B = [])
    ∧ ((∀ e ∈ H, e.role ≠ "") → B = 0 → load_conversation_history H B = []) := by
  refine ⟨?_, ?_, ?_, ?_⟩
  · have hp := window_loop_pre B H.reverse 0
    have := List.reverse_suffix.mpr hp
    rwa [List.reverse_reverse] at this
  · have := window_loop_sum B H.reverse 0 (Nat.zero_le B)
    rw [load_conversation_history, sum_cost_reverse]
    omega
  · intro e hl hc
    have hh : H.reverse.head? = some e := by rw [List.head?_reverse]; exact hl
    rw [load_conversation_history]
    cases hrev : H.reverse with
    | nil => simp [window_loop]
    | cons x t =>
      rw [hrev] at hh
      have hx : x = e := by simpa using hh
      subst hx
      rw [window_loop, if_neg (by omega)]
      rfl
  · intro hroles hB
    subst hB
    rw [load_conversation_history]
    cases hrev : H.reverse with
    | nil => simp [window_loop]
    | cons x t =>
      have hx : x ∈ H := by
        have : x ∈ H.reverse := by rw [hrev]; exact List.mem_cons_self x t
        exact List.mem_reverse.mp this
      have hpos := entry_cost_pos_of_role_ne_empty x (hroles x hx)
      rw [window_loop, if_neg (by omega)]
      rfl

/-- Witness for C1: a single `user` entry (cost 2) is dropped when the
budget is 0, so the window is empty. -/
theorem load_conversation_history_spec_witness :
    load_conversation_history [Entry.mk "user" "hi"] 0 = [] :=
  (load_conversation_history_spec [Entry.mk "user" "hi"] 0).2.2.2
    (by decide) rfl

/-- **C8.** Windowing is idempotent: re-windowing the window with the same
budget returns it unchanged. -/
theorem load_conversation_history_idem (H : List Entry) (B : Nat) :
    load_conversation_history (load_conversation_history H B) B
      = load_conversation_history H B := by
  rw [load_conversation_history, load_conversation_history,
    List.reverse_reverse, window_loop_idem]

/-- What the spec's words say the token estimator is:
`estimate(s) == ceil(byteLength(s)/4)` (UTF-8 byte length, rounded up). -/
def estimate_spec (s : String) : Nat :=
  (s.utf8ByteSize + 3) / 4

/-- **C2 counterexample.** The code's estimator is `len(s) // 4` (floor of
the code-point count), not `ceil(byteLength(s)/4)`: on the one-byte string
`"a"` the code returns 0 while the spec's formula gives 1. -/
theorem count_tokens_ne_estimate_spec :
    count_tokens "a" = 0 ∧ estimate_spec "a" = 1
      ∧ count_tokens "a" ≠ estimate_spec "a" := by
  refine ⟨by decide, by decide, by decide⟩

/-- **C2 (amended).** The estimator returns `floor(len(s)/4)` over
code-point length and is monotone in string length; the windower costs an
entry as `count_tokens(role ++ ": " ++ content ++ "\n")
= (|role| + |content| + 3) / 4`, which is exactly
`ceil((|role| + |content|)/4)`: the least `n` with `|role| + |content| ≤ 4n`. -/
theorem count_tokens_amended (s t r c : String) :
    (s.length ≤ t.length → count_tokens s ≤ count_tokens t)
    ∧ entry_cost ⟨r, c⟩ = (r.length + c.length + 3) / 4
    ∧ r.length + c.length ≤ 4 * entry_cost ⟨r, c⟩
    ∧ (∀ n, r.length + c.length ≤ 4 * n → entry_cost ⟨r, c⟩ ≤ n) := by
  have hcost : entry_cost ⟨r, c⟩ = (r.length + c.length + 3) / 4 := by
    unfold entry_cost count_tokens
    rw [entry_text_length]
  refine ⟨fun h => Nat.div_le_div_right h, hcost, by omega, fun n hn => by omega⟩

/-- Witness for C2 (amended): concrete strings with the hypotheses
discharged; `entry_cost ⟨"user", "hi"⟩ = ceil(6/4) = 2`. -/
theorem count_tokens_amended_witness :
    count_tokens "ab" ≤ count_tokens "abcd" ∧ entry_cost ⟨"user", "hi"⟩ ≤ 2 :=
  ⟨(count_tokens_amended "ab" "abcd" "user" "hi").1 (by decide),
   (count_tokens_amended "ab" "abcd" "user" "hi").2.2.2 2 (by decide)⟩

/-! ### Backend dispatch (`chat` in `chat.py`) -/

/-- The three adapters that `chat` can hand control to. -/
inductive Backend where
  | openai
  | anthropic
  | ollama
  deriving DecidableEq, Repr

/-- `config.get("backend", "openai")` in `chat`: a missing `backend` key
defaults to `"openai"`. -/
def backend_of_config (b : Option String) : String :=
  b.getD "openai"

/-- The dispatch chain of `chat`: `if backend == "ollama"` then Ollama,
`elif backend == "anthropic"` then Anthropic, `else` OpenAI.  The function
is total: there is no failure branch. -/
def chat_dispatch (backend : String) : Backend :=
  if backend = "ollama" then Backend.ollama
  else if backend = "anthropic" then Backend.anthropic
  else Backend.openai

/-- **C6 counterexample.** A configured backend kind outside
`{openai, anthropic, ollama}` does not fail dispatch: `chat` falls through
its `else` branch and invokes the OpenAI adapter. -/
theorem chat_dispatch_unsupported_kind :
    chat_dispatch "gemini" = Backend.openai := by decide

/-- **C6 (amended).** `chat` dispatches `"ollama"` and `"anthropic"` to
their adapters and every other backend kind (including unknown kinds, and a
missing key, which defaults to `"openai"`) to the OpenAI adapter; dispatch
never fails with `ConfigError`. -/
theorem chat_dispatch_amended (b : String) :
    chat_dispatch "ollama" = Backend.ollama
    ∧ chat_dispatch "anthropic" = Backend.anthropic
    ∧ (b ≠ "ollama" → b ≠ "anthropic" → chat_dispatch b = Backend.openai)
    ∧ chat_dispatch (backend_of_config none) = Backend.openai := by
  refine ⟨by decide, by decide, fun h1 h2 => ?_, by decide⟩
  rw [chat_dispatch, if_neg h1, if_neg h2]

/-- Witness for C6 (amended): the unsupported kind `"cohere"` is dispatched
to the OpenAI adapter. -/
theorem chat_dispatch_amended_witness :
    chat_dispatch "cohere" = Backend.openai :=
  (chat_dispatch_amended "cohere").2.2.1 (by decide) (by decide)

/-! ### Anthropic alias resolution (`ANTHROPIC_MODEL_MAP`,
`chat_with_anthropic` lines 68-70) -/

/-- `ANTHROPIC_MODEL_MAP` from `chat.py`. -/
def ANTHROPIC_MODEL_MAP : List (String × String) :=
  [("opus", "claude-3-opus-20240229"),
   ("sonnet", "claude-3-sonnet-20240229"),
   ("haiku", "claude-3-haiku-20240307")]

/-- Outcome of the first two statements of `chat_with_anthropic`:
`ANTHROPIC_MODEL_MAP[state.model]` raises `KeyError` for an unmapped name
(the spec's `ConfigError`); otherwise the guard `if not actual_model`
raises `ValueError` when the mapped value is falsy (the empty string), and
otherwise the resolved identifier is used. -/
inductive ResolveResult where
  | keyError (model : String)
  | valueError (model : String)
  | ok (model : String)
  deriving DecidableEq, Repr

/-- Alias resolution of `chat_with_anthropic`:
`actual_model = ANTHROPIC_MODEL_MAP[state.model]` followed by
`if not actual_model: raise ValueError(...)`. -/
def resolve_anthropic_model (model : String) : ResolveResult :=
  match ANTHROPIC_MODEL_MAP.lookup model with
  | none => ResolveResult.keyError model
  | some m => if m = "" then ResolveResult.valueError model else ResolveResult.ok m

lemma resolve_unmapped (a : String) (h1 : a ≠ "opus") (h2 : a ≠ "sonnet")
    (h3 : a ≠ "haiku") : resolve_anthropic_model a = ResolveResult.keyError a := by
  have b1 : (a == "opus") = false := beq_eq_false_iff_ne.mpr h1
  have b2 : (a == "sonnet") = false := beq_eq_false_iff_ne.mpr h2
  have b3 : (a == "haiku") = false := beq_eq_false_iff_ne.mpr h3
  simp [resolve_anthropic_model, ANTHROPIC_MODEL_MAP, List.lookup, b1, b2, b3]

/-- **C7.** The aliases `"opus"`, `"sonnet"`, `"haiku"` resolve to their
fixed versioned identifiers, and every other alias fails with the lookup
`KeyError` (the spec's `ConfigError`) rather than resolving. -/
theorem resolve_anthropic_model_spec (a : String) :
    resolve_anthropic_model "opus" = ResolveResult.ok "claude-3-opus-20240229"
    ∧ resolve_anthropic_model "sonnet" = ResolveResult.ok "claude-3-sonnet-20240229"
    ∧ resolve_anthropic_model "haiku" = ResolveResult.ok "claude-3-haiku-20240307"
    ∧ (a ≠ "opus" → a ≠ "sonnet" → a ≠ "haiku" →
        resolve_anthropic_model a = ResolveResult.keyError a) :=
  ⟨by decide, by decide, by decide, fun h1 h2 h3 => resolve_unmapped a h1 h2 h3⟩

/-- Witness for C7: the unmapped alias `"gpt-4"` fails the dictionary
lookup. -/
theorem resolve_anthropic_model_spec_witness :
    resolve_anthropic_model "gpt-4" = ResolveResult.keyError "gpt-4" :=
  (resolve_anthropic_model_spec "gpt-4").2.2.2 (by decide) (by decide) (by decide)

/-- `true` exactly when the `if not actual_model` guard of
`chat_with_anthropic` fires. -/
def hits_value_error_guard (model : String) : Bool :=
  match resolve_anthropic_model model with
  | ResolveResult.valueError _ => true
  | _ => false

/-- **C9.** The explicit `if not actual_model` guard is unreachable for
every input: unmapped names raise `KeyError` on the dictionary lookup
before the guard runs, and all three mapped values are non-empty strings. -/
theorem value_error_guard_unreachable (a : String) :
    hits_value_error_guard a = false := by
  by_cases h1 : a = "opus"
  · subst h1; decide
  by_cases h2 : a = "sonnet"
  · subst h2; decide
  by_cases h3 : a = "haiku"
  · subst h3; decide
  simp [hits_value_error_guard, resolve_unmapped a h1 h2 h3]

/-! ### OpenAI stream fragments (`chat_with_openai` lines 139-148) -/

/-- Per-chunk handling in `chat_with_openai`: the chunk's
`choices[0].delta.content` is either absent/`None` (modelled `none`) or a
string; `if chunk_content:` yields it only when it is truthy, i.e.
non-empty, and chunks without usable content (including the `KeyError`
branch) yield nothing. -/
def openai_chunk_fragment (content : Option String) : Option String :=
  match content with
  | none => none
  | some s => if s = "" then none else some s

/-- The fragments `chat_with_openai` yields for a list of delta chunks. -/
def chat_with_openai_fragments (chunks : List (Option String)) : List String :=
  chunks.filterMap openai_chunk_fragment

/-- **C10.** Every fragment yielded by the OpenAI adapter is a non-empty
string: the yielded list never contains `""`. -/
theorem openai_fragments_nonempty (chunks : List (Option String)) :
    (chat_with_openai_fragments chunks).contains "" = false := by
  induction chunks with
  | nil => rfl
  | cons c rest ih =>
    cases c with
    | none => simpa [chat_with_openai_fragments, openai_chunk_fragment] using ih
    | some s =>
      by_cases h : s = ""
      · subst h
        simpa [chat_with_openai_fragments, openai_chunk_fragment] using ih
      · have key : chat_with_openai_fragments (some s :: rest)
            = s :: chat_with_openai_fragments rest := by
          simp [chat_with_openai_fragments, openai_chunk_fragment, h]
        have hb : ("" == s) = false := beq_eq_false_iff_ne.mpr (Ne.symm h)
        rw [key, List.contains_cons, hb, ih]
        rfl

/-! ### Credential checks (`chat_with_openai` lines 126-128,
`chat_with_anthropic` lines 76-78) -/

/-- What the adapter body does before issuing a request: either it calls
`exit(code)` (process termination via `SystemExit`) or it proceeds to the
HTTP request. -/
inductive StartOutcome where
  | exit (code : Nat)
  | proceed
  deriving DecidableEq, Repr

/-- `chat_with_openai` lines 126-128: `if "OPENAI_API_KEY" not in
os.environ: print_red(...); exit(1)`.  The environment is modelled as the
list of set variable names. -/
def chat_with_openai_start (env : List String) : StartOutcome :=
  if "OPENAI_API_KEY" ∈ env then StartOutcome.proceed else StartOutcome.exit 1

/-- `chat_with_anthropic` lines 76-78: `if "ANTHROPIC_API_KEY" not in
os.environ: print_red(...); exit(1)`. -/
def chat_with_anthropic_start (env : List String) : StartOutcome :=
  if "ANTHROPIC_API_KEY" ∈ env then StartOutcome.proceed else StartOutcome.exit 1

/-- **C4 counterexample.** With the credential absent, both adapters call
`exit(1)`: the process is terminated by the core itself, instead of a
credential error propagating to the caller. -/
theorem credential_check_terminates_process :
    chat_with_openai_start [] = StartOutcome.exit 1
    ∧ chat_with_anthropic_start [] = StartOutcome.exit 1 := by
  refine ⟨by decide, by decide⟩

/-- **C4 (amended).** When the required credential is absent the adapter
prints a user-facing message naming the variable and terminates the process
with `exit(1)`; when it is present the adapter proceeds to the request.
(The check sits inside a generator body, so it runs on first consumption of
the stream, and is not retried.) -/
theorem credential_check_amended (env : List String) :
    ("OPENAI_API_KEY" ∉ env → chat_with_openai_start env = StartOutcome.exit 1)
    ∧ ("OPENAI_API_KEY" ∈ env → chat_with_openai_start env = StartOutcome.proceed)
    ∧ ("ANTHROPIC_API_KEY" ∉ env → chat_with_anthropic_start env = StartOutcome.exit 1)
    ∧ ("ANTHROPIC_API_KEY" ∈ env → chat_with_anthropic_start env = StartOutcome.proceed) := by
  refine ⟨fun h => ?_, fun h => ?_, fun h => ?_, fun h => ?_⟩
  · rw [chat_with_openai_start, if_neg h]
  · rw [chat_with_openai_start, if_pos h]
  · rw [chat_with_anthropic_start, if_neg h]
  · rw [chat_with_anthropic_start, if_pos h]

/-- Witness for C4 (amended): an environment holding only `OPENAI_API_KEY`
lets the OpenAI adapter proceed and makes the Anthropic adapter exit. -/
theorem credential_check_amended_witness :
    chat_with_openai_start ["OPENAI_API_KEY"] = StartOutcome.proceed
    ∧ chat_with_anthropic_start ["OPENAI_API_KEY"] = StartOutcome.exit 1 :=
  ⟨(credential_check_amended ["OPENAI_API_KEY"]).2.1 (by decide),
   (credential_check_amended ["OPENAI_API_KEY"]).2.2.1 (by decide)⟩

/-! ### Persistence of the assistant turn (`main`, lines 187-198 and
251-269) -/

/-- Python `s.startswith(pre)`, on the code-point lists. -/
def py_startswith (s pre : String) : Bool :=
  pre.data.isPrefixOf s.data

/-- Python `s[n:]` for a non-negative `n`, on the code-point lists. -/
def py_drop (s : String) (n : Nat) : String :=
  String.mk (s.data.drop n)

/-- Python `s.strip()`: remove leading and trailing whitespace. -/
def py_strip (s : String) : String :=
  String.mk
    (((s.data.dropWhile Char.isWhitespace).reverse.dropWhile
      Char.isWhitespace).reverse)

/-- The accumulation `ai_response = ""` / `ai_response += chunk` over the
stream, shared by all three modes of `main`. -/
def accumulate_response (chunks : List String) : String :=
  String.join chunks

/-- What file mode and one-off mode persist as the assistant entry's
content (`main` lines 187-198 and 216-227): the accumulated response,
unchanged. -/
def persist_file_mode (chunks : List String) : String :=
  accumulate_response chunks

/-- What interactive mode persists (`main` lines 251-269): the accumulated
response, except that a response starting with `"assistant:"` has its first
10 characters removed and is then stripped
(`ai_response = ai_response[10:].strip()`). -/
def persist_interactive (chunks : List String) : String :=
  let r := accumulate_response chunks
  if py_startswith r "assistant:" then py_strip (py_drop r 10) else r

/-- **C5 counterexample.** A completed interactive turn whose fragments
concatenate to `"assistant: hi"` persists `"hi"`, not the concatenation:
the leading `"assistant:"` is removed and the remainder stripped. -/
theorem persisted_ne_concatenation :
    accumulate_response ["assistant:", " hi"] = "assistant: hi"
    ∧ persist_interactive ["assistant:", " hi"] = "hi"
    ∧ persist_interactive ["assistant:", " hi"]
        ≠ accumulate_response ["assistant:", " hi"] := by
  refine ⟨by decide, by decide, by decide⟩

lemma isPrefixOf_decomp (l₁ : List Char) :
    ∀ l₂ : List Char, l₁.isPrefixOf l₂ = true → l₂ = l₁ ++ l₂.drop l₁.length := by
  induction l₁ with
  | nil => intro l₂ _; simp
  | cons a as ih =>
    intro l₂ h
    cases l₂ with
    | nil => simp [List.isPrefixOf] at h
    | cons b bs =>
      simp only [List.isPrefixOf, Bool.and_eq_true, beq_iff_eq] at h
      obtain ⟨hab, hrest⟩ := h
      subst hab
      simpa using ih bs hrest

/-- **C5 (amended).** The persisted assistant content equals the
concatenation of the yielded fragments in file mode and one-off mode, and
in interactive mode whenever the concatenation does not start with
`"assistant:"`; when it does, interactive mode persists the concatenation
with its 10-character `"assistant:"` prefix removed and surrounding
whitespace stripped (the concatenation decomposes as that prefix followed
by the retained part). -/
theorem persisted_content_amended (chunks : List String) :
    persist_file_mode chunks = accumulate_response chunks
    ∧ (py_startswith (accumulate_response chunks) "assistant:" = false →
        persist_interactive chunks = accumulate_response chunks)
    ∧ (py_startswith (accumulate_response chunks) "assistant:" = true →
        persist_interactive chunks
          = py_strip (py_drop (accumulate_response chunks) 10)
        ∧ (accumulate_response chunks).data
          = "assistant:".data ++ (py_drop (accumulate_response chunks) 10).data) := by
  refine ⟨rfl, fun h => ?_, fun h => ⟨?_, ?_⟩⟩
  · rw [persist_interactive]
    simp only [h, Bool.false_eq_true, if_false]
  · rw [persist_interactive]
    simp only [h, if_true]
  · have hlen : ("assistant:".data).length = 10 := by decide
    have := isPrefixOf_decomp "assistant:".data (accumulate_response chunks).data h
    rw [hlen] at this
    exact this

/-- Witness for C5 (amended): concrete streams on both branches.  The
fragments `["hi", " there"]` concatenate to `"hi there"`, which interactive
mode persists unchanged; `["assistant:", " hi"]` is persisted with the
prefix removed and stripped. -/
theorem persisted_content_amended_witness :
    persist_interactive ["hi", " there"] = accumulate_response ["hi", " there"]
    ∧ persist_interactive ["assistant:", " hi"]
        = py_strip (py_drop (accumulate_response ["assistant:", " hi"]) 10) :=
  ⟨(persisted_content_amended ["hi", " there"]).2.1 (by decide),
   ((persisted_content_amended ["assistant:", " hi"]).2.2 (by decide)).1⟩

/-! ### Retry policy (`@retry(stop_max_attempt_number=3, wait_fixed=1000)`
on `chat_with_openai` and `chat_with_anthropic`) -/

/-- Modelled from the `retrying` library used by the decorator: call `f`;
return its value if it does not raise; on an exception make up to `n`
further attempts, surfacing the last failure.  The attempt index `k` is
1-based; the pair's second component counts the calls made.  The fixed
1-second sleep between attempts has no observable counterpart here. -/
def retry_run (f : Nat → Except String α) : Nat → Nat → Except String α × Nat
  | k, 0 => (f k, 1)
  | k, n + 1 =>
    match f k with
    | Except.ok a => (Except.ok a, 1)
    | Except.error _ =>
      let r := retry_run f (k + 1) n
      (r.1, r.2 + 1)

/-- Calling a Python generator function executes no body code: it returns a
generator object at once, so the call the retry wrapper sees never raises.
The created object is modelled by the index of the call that created it. -/
def generator_call (k : Nat) : Except String Nat :=
  Except.ok k

/-- The decorated adapter as it actually executes: the retry wrapper
retries generator creation (`generator_call`), which succeeds on its first
call; the transport attempt happens later, when the caller iterates the
generator, outside the wrapper.  The backend is a function from the
(1-based) transport-attempt index to a transport result; the returned list
records which transport attempts were actually performed. -/
def adapter_call_code (backend : Nat → Except String (List String)) :
    Except String (List String) × List Nat :=
  match retry_run generator_call 1 2 with
  | (Except.ok j, _) => (backend j, [j])
  | (Except.error e, _) => (Except.error e, [])

/-- Modelled from the spec: the intended retry behaviour, in which the
transport attempt itself is inside the wrapper and is retried up to 3
attempts total. -/
def adapter_call_spec (backend : Nat → Except String (List String)) :
    Except String (List String) × Nat :=
  retry_run backend 1 2

/-- The claim's stub: a backend whose transport fails on attempts 1 and 2
and succeeds on attempt 3. -/
def fails_twice_stub (k : Nat) : Except String (List String) :=
  if 3 ≤ k then Except.ok ["hello"] else Except.error "transport failure"

/-- **C3 divergence.** On the fail-fail-succeed stub the spec's retry
policy yields a successful stream after exactly 3 attempts, but the code as
written performs exactly one transport attempt (attempt 1) and surfaces its
failure: the decorator wraps generator creation, which never raises, so no
transport failure is ever retried. -/
theorem retry_decorator_never_retries :
    adapter_call_spec fails_twice_stub = (Except.ok ["hello"], 3)
    ∧ adapter_call_code fails_twice_stub
        = (Except.error "transport failure", [1]) := by
  refine ⟨rfl, rfl⟩

end Doktor
